import Mathlib

/-!
Shallow embedding of the real-time WebSocket core of miuchi.chat
(src/ws.rs): wire frames, the in-process registry, the dispatcher
(`handle_websocket_message`), broadcast fan-out, the connection-count
check, the rate limiter and its replenisher, the heartbeat task, and the
WebRTC relay. HashMaps are modelled as association lists, UUIDs as
naturals with the decimal codec standing in for the uuid string codec
(an injective rendering with a partial-inverse parse, which is all the
verified properties depend on), and instants as millisecond counts.
-/

namespace MiuchiChat

/-- Payload of a WebRTC signalling frame (`serde_json::Value`): treated as
an abstract value the server never inspects. -/
abbrev JsonVal := Nat

/-- Wire frames exchanged over the WebSocket (`enum WsMessage` in
src/ws.rs, lines 30-104). Timestamps are millisecond counts. -/
inductive WsMessage where
  | joinRoom (room : String)
  | sendMessage (room : String) (content : String) (message_type : Option String)
  | leaveRoom (room : String)
  | ping (timestamp : Option Nat)
  | webRtcOffer (room : String) (to_user_id : String) (offer : JsonVal)
  | webRtcAnswer (room : String) (to_user_id : String) (answer : JsonVal)
  | webRtcIceCandidate (room : String) (to_user_id : String) (candidate : JsonVal)
  | roomJoined (room : String) (user_id : String) (username : String)
  | message (id : String) (room : String) (user_id : String) (username : String)
      (content : String) (message_type : String) (timestamp : Nat)
  | userJoined (room : String) (user_id : String) (username : String)
  | userLeft (room : String) (user_id : String) (username : String)
  | pong (timestamp : Option Nat)
  | error (message : String) (code : Option Nat)
  | authRequired
  | rateLimited (retry_after : Nat)
deriving DecidableEq, Repr

/-- The uuid string codec, modelled by the decimal Nat codec. -/
def uuidToString (n : Nat) : String := toString n

/-- Decimal value of a digit character. -/
def digitVal (c : Char) : Option Nat :=
  if c.isDigit then some (c.toNat - '0'.toNat) else none

/-- Accumulating decimal parse of a character list; fails on any
non-digit. -/
def parseDigits (acc : Nat) : List Char → Option Nat
  | [] => some acc
  | c :: cs =>
    match digitVal c with
    | some d => parseDigits (acc * 10 + d) cs
    | none => none

/-- `str.parse::<Uuid>()`, modelled as the partial inverse of
`uuidToString` (fails on the empty string and on any non-digit). -/
def parseUuid (s : String) : Option Nat :=
  match s.data with
  | [] => none
  | cs => parseDigits 0 cs

/-- A connected client's session record (`struct ConnectedClient`,
src/ws.rs lines 107-117). `connId` identifies the connection's outbound
broadcast channel (the `sender` field); the shared rate-limit semaphore
and activity instant are modelled separately, keyed by `connId`. -/
structure ConnectedClient where
  user_id : Nat
  username : String
  rooms : List String
  connId : Nat
deriving DecidableEq, Repr

/-- Association-list operations modelling `std::collections::HashMap`. -/
def alistFind (k : Nat) : List (Nat × ConnectedClient) → Option ConnectedClient
  | [] => none
  | (k2, v) :: rest => if k2 = k then some v else alistFind k rest

def alistInsert (k : Nat) (v : ConnectedClient) :
    List (Nat × ConnectedClient) → List (Nat × ConnectedClient)
  | [] => [(k, v)]
  | (k2, v2) :: rest =>
    if k2 = k then (k, v) :: rest else (k2, v2) :: alistInsert k v rest

def alistErase (k : Nat) :
    List (Nat × ConnectedClient) → List (Nat × ConnectedClient)
  | [] => []
  | (k2, v2) :: rest =>
    if k2 = k then rest else (k2, v2) :: alistErase k rest

/-- The clients of one room: `HashMap<Uuid, ConnectedClient>`. -/
abbrev RoomClients := List (Nat × ConnectedClient)

/-- The process-wide registry: `HashMap<String, HashMap<Uuid,
ConnectedClient>>` (the `AppState` behind its lock). -/
abbrev Registry := List (String × RoomClients)

def regFind (room : String) : Registry → Option RoomClients
  | [] => none
  | (r, rc) :: rest => if r = room then some rc else regFind room rest

def regInsert (room : String) (rc : RoomClients) : Registry → Registry
  | [] => [(room, rc)]
  | (r, rc2) :: rest =>
    if r = room then (room, rc) :: rest else (r, rc2) :: regInsert room rc rest

def regErase (room : String) : Registry → Registry
  | [] => []
  | (r, rc) :: rest =>
    if r = room then rest else (r, rc) :: regErase room rest

/-- Whether a room's client map contains the identity. -/
def roomHasUser (uid : Nat) (rc : RoomClients) : Bool :=
  rc.any (fun p => p.1 == uid)

/-- The number of registry rows — (room, identity) pairs — referencing an
identity. -/
def rowCount (uid : Nat) (st : Registry) : Nat :=
  ((st.map Prod.snd).filter (roomHasUser uid)).length

/-- `MAX_CONNECTIONS_PER_USER` (src/ws.rs line 151). -/
def MAX_CONNECTIONS_PER_USER : Nat := 5

/-- Loop body of `check_connection_limit`: walk the rooms, counting those
that contain the identity, failing as soon as the count reaches the cap
(src/ws.rs lines 710-727). -/
def checkAux (uid : Nat) : List RoomClients → Nat → Except String Unit
  | [], _ => .ok ()
  | rc :: rest, count =>
    if roomHasUser uid rc then
      if count + 1 ≥ MAX_CONNECTIONS_PER_USER then
        .error "Maximum connections exceeded"
      else checkAux uid rest (count + 1)
    else checkAux uid rest count

/-- `check_connection_limit` (src/ws.rs lines 710-727): scans every room
of the registry for the identity. -/
def check_connection_limit (uid : Nat) (st : Registry) : Except String Unit :=
  checkAux uid (st.map Prod.snd) 0

/-- `add_client_to_room` (src/ws.rs lines 754-768): entry(room).or_insert
an empty map, push the room onto the client's room list, insert under the
user's id. -/
def add_client_to_room (room : String) (uid : Nat) (client : ConnectedClient)
    (st : Registry) : Registry :=
  let roomClients := (regFind room st).getD []
  let updated := { client with rooms := client.rooms ++ [room] }
  regInsert room (alistInsert uid updated roomClients) st

/-- `remove_client_from_room` (src/ws.rs lines 771-779): remove the user
from the room's map and reap the room if it became empty. -/
def remove_client_from_room (room : String) (uid : Nat) (st : Registry) :
    Registry :=
  match regFind room st with
  | none => st
  | some rc =>
    let rc2 := alistErase uid rc
    if rc2.isEmpty then regErase room st
    else regInsert room rc2 st

/-- `cleanup_user_connections` (src/ws.rs lines 782-806): remove the
identity from every room it appears in, reaping rooms that become
empty. -/
def cleanup_user_connections (uid : Nat) : Registry → Registry
  | [] => []
  | (room, rc) :: rest =>
    if roomHasUser uid rc then
      let rc2 := alistErase uid rc
      if rc2.isEmpty then cleanup_user_connections uid rest
      else (room, rc2) :: cleanup_user_connections uid rest
    else (room, rc) :: cleanup_user_connections uid rest

/-- The authenticated user (the fields of `crate::models::User` the
WebSocket core reads). -/
structure User where
  id : Nat
  username : String
deriving DecidableEq, Repr

/-- A room row as the dispatcher reads it (`crate::models::Room`). -/
structure Room where
  id : Nat
  name : String
  is_public : Bool
deriving DecidableEq, Repr

/-- The server-assigned fields of a freshly-persisted message
(`DbMessage::create`'s result). -/
structure PersistedMsg where
  id : Nat
  created_at : Nat
deriving DecidableEq, Repr

deriving instance DecidableEq for Except

/-- The database and search-index environment a single dispatch runs
against: room rows, membership rows `(room id, user id)`, the outcome of
the one `DbMessage::create` call, and the outcome of the one
Meilisearch `add_documents` call. -/
structure Env where
  rooms : List Room
  members : List (Nat × Nat)
  persist : Except String PersistedMsg
  indexOk : Bool
deriving DecidableEq, Repr

/-- `Room::find_by_id`. -/
def find_by_id (rooms : List Room) (i : Nat) : Option Room :=
  rooms.find? (fun r => r.id == i)

/-- `Room::find_by_name`. -/
def find_by_name (rooms : List Room) (n : String) : Option Room :=
  rooms.find? (fun r => r.name == n)

/-- Room resolution in `handle_websocket_message` (src/ws.rs lines
455-462 and 513-520): by id when the string parses as a uuid, else by
name. -/
def resolve_room (env : Env) (room : String) : Option Room :=
  match parseUuid room with
  | some i => find_by_id env.rooms i
  | none => find_by_name env.rooms room

/-- `Room::is_member`: whether the membership set of the room contains
the identity. -/
def is_member (env : Env) (roomId uid : Nat) : Bool :=
  env.members.any (fun p => p.1 == roomId && p.2 == uid)

/-- `DbMessageType` (crate::models). -/
inductive DbMessageType where
  | text | image | file | system
deriving DecidableEq, Repr

/-- Mapping of the optional `message_type` string (src/ws.rs lines
528-533). -/
def toDbMessageType : Option String → DbMessageType
  | some "image" => .image
  | some "file" => .file
  | some "system" => .system
  | _ => .text

/-- Rendering of a `DbMessageType` on the wire and in the search
document (src/ws.rs lines 555-560 and 575-580). -/
def dbTypeString : DbMessageType → String
  | .text => "text"
  | .image => "image"
  | .file => "file"
  | .system => "system"

/-- One frame enqueued onto a client's outbound channel; `chan` is the
recipient's `connId`. -/
structure Delivery where
  chan : Nat
  frame : WsMessage
deriving DecidableEq, Repr

/-- One invocation of `broadcast_to_room` (room, frame, excluded user). -/
structure BroadcastCall where
  room : String
  frame : WsMessage
  exclude : Option Nat
deriving DecidableEq, Repr

/-- The `exclude_user.map_or(true, |exclude| exclude != *user_id)` guard
of `broadcast_to_room`. -/
def keepRecipient (exclude : Option Nat) (uid : Nat) : Bool :=
  match exclude with
  | none => true
  | some e => e != uid

/-- `broadcast_to_room` (src/ws.rs lines 809-842): enqueue the frame to
every client of the room except the excluded user; a room absent from
the registry yields no deliveries. -/
def broadcast_to_room (room : String) (msg : WsMessage) (exclude : Option Nat)
    (st : Registry) : List Delivery :=
  match regFind room st with
  | none => []
  | some rc =>
    rc.filterMap (fun p =>
      if keepRecipient exclude p.1 then some ⟨p.2.connId, msg⟩ else none)

/-- One row of the `DbMessage::create` call (src/ws.rs lines 536-543). -/
structure PersistCall where
  room_id : Nat
  author : Nat
  content : String
  mtype : DbMessageType
deriving DecidableEq, Repr

/-- The search document handed to `add_documents` (src/ws.rs lines
547-561). -/
structure SearchDoc where
  id : String
  room_id : String
  room_name : String
  author_id : String
  author_name : String
  content : String
  created_at : Nat
  message_type : String
deriving DecidableEq, Repr

/-- Everything one call of the dispatcher produced: the registry after
the call, frames sent on the connection's own channel (`sender.send`),
broadcast invocations and the deliveries they caused, persistence and
index-add calls, and the `anyhow::Result` returned to the caller. -/
structure DispatchOutput where
  registry : Registry
  toSender : List WsMessage
  broadcasts : List BroadcastCall
  deliveries : List Delivery
  persisted : List PersistCall
  indexed : List SearchDoc
  result : Except String Unit
deriving DecidableEq, Repr

/-- A dispatch that produced no effect and returned Ok. -/
def baseOutput (st : Registry) : DispatchOutput :=
  { registry := st, toSender := [], broadcasts := [], deliveries := [],
    persisted := [], indexed := [], result := .ok () }

/-- A dispatch that returned Err before any effect. -/
def errOutput (st : Registry) (e : String) : DispatchOutput :=
  { baseOutput st with result := .error e }

/-- First client found for the target identity while scanning
`state.values()` (`relay_webrtc_signal`'s search loop, src/ws.rs lines
900-938; channel sends are modelled as succeeding). -/
def findTargetClient (target : Nat) : Registry → Option ConnectedClient
  | [] => none
  | (_, rc) :: rest =>
    match alistFind target rc with
    | some c => some c
    | none => findTargetClient target rest

/-- Rewriting of `to_user_id` to the sender's identity before the relay
(src/ws.rs lines 903-922). -/
def enrichSignal (msg : WsMessage) (from_uid : Nat) : WsMessage :=
  match msg with
  | .webRtcOffer room _ offer => .webRtcOffer room (uuidToString from_uid) offer
  | .webRtcAnswer room _ answer => .webRtcAnswer room (uuidToString from_uid) answer
  | .webRtcIceCandidate room _ candidate =>
    .webRtcIceCandidate room (uuidToString from_uid) candidate
  | m => m

/-- Body of `relay_webrtc_signal` once the target id string is in hand:
parse it, scan the registry, deliver the rewritten frame to the first
client found for the target, or fail. -/
def relayParsed (msg : WsMessage) (from_uid : Nat) (st : Registry)
    (t : String) : Except String (List Delivery) :=
  match parseUuid t with
  | none => .error "Invalid target user ID"
  | some target =>
    match findTargetClient target st with
    | some c => .ok [⟨c.connId, enrichSignal msg from_uid⟩]
    | none => .error "Target user not found or offline"

/-- `relay_webrtc_signal` (src/ws.rs lines 882-946). -/
def relay_webrtc_signal (msg : WsMessage) (from_uid : Nat) (st : Registry) :
    Except String (List Delivery) :=
  match msg with
  | .webRtcOffer _ t _ => relayParsed msg from_uid st t
  | .webRtcAnswer _ t _ => relayParsed msg from_uid st t
  | .webRtcIceCandidate _ t _ => relayParsed msg from_uid st t
  | _ => .error "Invalid WebRTC message type"

/-- `handle_websocket_message` (src/ws.rs lines 436-682): the dispatcher
interpreting one decoded inbound frame. -/
def handle_websocket_message (msg : WsMessage) (user : User)
    (client : ConnectedClient) (env : Env) (st : Registry) : DispatchOutput :=
  match msg with
  | .joinRoom room =>
    if room.isEmpty ∨ 100 < room.utf8ByteSize then
      errOutput st "Invalid room name"
    else
      match resolve_room env room with
      | none => errOutput st "Room not found"
      | some robj =>
        if !robj.is_public && !is_member env robj.id user.id then
          errOutput st "You are not a member of this private room"
        else
          let st2 := add_client_to_room room user.id client st
          let note : WsMessage :=
            .userJoined room (uuidToString user.id) user.username
          { registry := st2
            toSender := [.roomJoined room (uuidToString user.id) user.username]
            broadcasts := [⟨room, note, some user.id⟩]
            deliveries := broadcast_to_room room note (some user.id) st2
            persisted := []
            indexed := []
            result := .ok () }
  | .sendMessage room content message_type =>
    if content.isEmpty then
      errOutput st "Message content cannot be empty"
    else if 4000 < content.utf8ByteSize then
      errOutput st "Message content too long"
    else
      match resolve_room env room with
      | none => errOutput st "Room not found"
      | some robj =>
        if !robj.is_public && !is_member env robj.id user.id then
          errOutput st "You are not a member of this private room"
        else
          let mt := toDbMessageType message_type
          match env.persist with
          | .error e => errOutput st e
          | .ok pm =>
            let doc : SearchDoc :=
              { id := uuidToString pm.id
                room_id := uuidToString robj.id
                room_name := robj.name
                author_id := uuidToString user.id
                author_name := user.username
                content := content
                created_at := pm.created_at
                message_type := dbTypeString mt }
            let wsm : WsMessage :=
              .message (uuidToString pm.id) room (uuidToString user.id)
                user.username content (dbTypeString mt) pm.created_at
            { registry := st
              toSender := []
              broadcasts := [⟨room, wsm, none⟩]
              deliveries := broadcast_to_room room wsm none st
              persisted := [⟨robj.id, user.id, content, mt⟩]
              indexed := [doc]
              result := .ok () }
  | .leaveRoom room =>
    let st2 := remove_client_from_room room user.id st
    let note : WsMessage := .userLeft room (uuidToString user.id) user.username
    { registry := st2
      toSender := []
      broadcasts := [⟨room, note, some user.id⟩]
      deliveries := broadcast_to_room room note (some user.id) st2
      persisted := []
      indexed := []
      result := .ok () }
  | .ping timestamp =>
    { baseOutput st with toSender := [.pong timestamp] }
  | .webRtcOffer room t offer =>
    match relay_webrtc_signal (.webRtcOffer room t offer) user.id st with
    | .ok ds => { baseOutput st with deliveries := ds }
    | .error e => errOutput st e
  | .webRtcAnswer room t answer =>
    match relay_webrtc_signal (.webRtcAnswer room t answer) user.id st with
    | .ok ds => { baseOutput st with deliveries := ds }
    | .error e => errOutput st e
  | .webRtcIceCandidate room t candidate =>
    match relay_webrtc_signal (.webRtcIceCandidate room t candidate) user.id st with
    | .ok ds => { baseOutput st with deliveries := ds }
    | .error e => errOutput st e
  | _ => baseOutput st

/-- The receive loop's treatment of the dispatcher's result (src/ws.rs
lines 344-371): on Err, an `Error` frame with the error's text and code
1002 is sent to the connection's own channel. -/
def dispatch_and_reply (msg : WsMessage) (user : User)
    (client : ConnectedClient) (env : Env) (st : Registry) : DispatchOutput :=
  let out := handle_websocket_message msg user client env st
  match out.result with
  | .ok _ => out
  | .error e => { out with toSender := out.toSender ++ [.error e (some 1002)] }

/-- `RATE_LIMIT_MESSAGES` (src/ws.rs line 149). -/
def RATE_LIMIT_MESSAGES : Nat := 10

/-- `RATE_LIMIT_WINDOW` in seconds (src/ws.rs line 150). -/
def RATE_LIMIT_WINDOW_SECS : Nat := 1

/-- `MAX_MESSAGE_SIZE` (src/ws.rs line 148). -/
def MAX_MESSAGE_SIZE : Nat := 65536

/-- `CLIENT_TIMEOUT` in milliseconds (src/ws.rs line 147). -/
def CLIENT_TIMEOUT_MS : Nat := 60000

/-- The per-connection mutable counters touched by the receive loop: the
rate-limit semaphore's available permits and the message counter. -/
structure ConnState where
  permits : Nat
  message_count : Nat
deriving DecidableEq, Repr

/-- What one inbound text frame produced: the immediate reply sent on
the connection's channel (if any), the decoded frame handed to the
dispatcher (if any), and whether JSON decoding was attempted. -/
structure FrameResult where
  reply : Option WsMessage
  dispatched : Option WsMessage
  decoded : Bool
deriving DecidableEq, Repr

/-- The receive loop's handling of one inbound text frame (src/ws.rs
lines 315-380): size check, then non-blocking permit acquire (failure
replies RateLimited and drops the frame before the counter update and
before decoding), then counter increment, then JSON decode, then
dispatch. `decode` stands for `serde_json::from_str`. The
SemaphorePermit returned by `try_acquire()` on line 331 is a temporary
that is dropped as soon as the `if` condition has been evaluated, and
dropping a permit releases it back to the semaphore (it is never
`forget`-ten), so a successful acquire leaves the pool unchanged. -/
def process_text_frame (decode : String → Option WsMessage) (cs : ConnState)
    (text : String) : ConnState × FrameResult :=
  if MAX_MESSAGE_SIZE < text.utf8ByteSize then
    (cs, ⟨some (.error "Message too large" (some 1009)), none, false⟩)
  else if cs.permits = 0 then
    (cs, ⟨some (.rateLimited RATE_LIMIT_WINDOW_SECS), none, false⟩)
  else
    let cs2 : ConnState := ⟨cs.permits, cs.message_count + 1⟩
    match decode text with
    | some m => (cs2, ⟨none, some m, true⟩)
    | none => (cs2, ⟨some (.error "Invalid JSON format" (some 1003)), none, true⟩)

/-- A run of consecutive inbound text frames with no intervening
replenisher tick. -/
def run_frames (decode : String → Option WsMessage) (cs : ConnState) :
    List String → ConnState × List FrameResult
  | [] => (cs, [])
  | t :: ts =>
    let step := process_text_frame decode cs t
    let rest := run_frames decode step.1 ts
    (rest.1, step.2 :: rest.2)

/-- Number of frames of a run that were handed to the dispatcher. -/
def countDispatched (rs : List FrameResult) : Nat :=
  (rs.filter (fun r => r.dispatched.isSome)).length

/-- `while available_permits < RATE_LIMIT_MESSAGES add_permits 1` — the
replenisher's per-client top-up (src/ws.rs lines 743-745). -/
def replenish_pool (p : Nat) : Nat :=
  if p < RATE_LIMIT_MESSAGES then RATE_LIMIT_MESSAGES else p

/-- The connection ids present anywhere in the registry. -/
def registryConnIds (st : Registry) : List Nat :=
  ((st.map Prod.snd).flatten).map (fun p => p.2.connId)

/-- One tick of the process-wide rate-limit reset task (src/ws.rs lines
732-751): iterate the registry's rooms and top up each client's shared
pool; pools of connections present in no room are not touched. -/
def rate_limit_reset_tick (st : Registry) (pools : Nat → Nat) : Nat → Nat :=
  fun cid =>
    if cid ∈ registryConnIds st then replenish_pool (pools cid) else pools cid

/-- An operation on one connection's permit pool: a successful
non-blocking acquire by the receive loop, or the replenisher's top-up.
The pool starts at 10 (`Semaphore::new(RATE_LIMIT_MESSAGES)`,
src/ws.rs line 214). A successful `try_acquire()` (src/ws.rs line 331)
is net-zero on the pool: its SemaphorePermit is a temporary released
when it is dropped at the end of the `if` condition. -/
inductive PoolOp where
  | acquire
  | replenish
deriving DecidableEq, Repr

def applyPoolOp (p : Nat) : PoolOp → Nat
  | .acquire => p
  | .replenish => replenish_pool p

/-- The pool's value after a sequence of operations from its initial
value of 10. -/
def runPoolOps (ops : List PoolOp) : Nat :=
  ops.foldl applyPoolOp RATE_LIMIT_MESSAGES

/-- An effect the server performs on a connection, used to model the
heartbeat task's loop body. -/
inductive ServerAction where
  | enqueueFrame (m : WsMessage)
  | closeSocket
  | runCleanup
deriving DecidableEq, Repr

/-- One tick of the heartbeat task (src/ws.rs lines 241-267): when the
shared last-activity instant is more than 60 s old, send
Error{1001, "Connection timed out"} on the connection's channel and
break out of the heartbeat loop (the Bool); otherwise send a Ping with
the current wall clock. -/
def heartbeat_tick (elapsedMs nowMs : Nat) : List ServerAction × Bool :=
  if CLIENT_TIMEOUT_MS < elapsedMs then
    ([.enqueueFrame (.error "Connection timed out" (some 1001))], true)
  else
    ([.enqueueFrame (.ping (some nowMs))], false)

/-- The inbound events the receive loop can observe (src/ws.rs lines
310-416). -/
inductive InboundEvent where
  | text (s : String)
  | binary
  | close
  | pingFrame
  | pongFrame
  | transportError
deriving DecidableEq, Repr

/-- Whether an inbound event breaks the receive loop; only after that
loop ends does the connection run `cleanup_user_connections`
(src/ws.rs lines 392-398, 411-414, 418-423). -/
def recv_loop_exits : InboundEvent → Bool
  | .close => true
  | .transportError => true
  | _ => false

/-- The upgrade path's admission step (src/ws.rs lines 223-236): consult
`check_connection_limit`; admission itself does not modify the registry
(clients are inserted only by a later JoinRoom dispatch). -/
def upgrade_step (uid : Nat) (st : Registry) : Bool × Registry :=
  match check_connection_limit uid st with
  | .ok _ => (true, st)
  | .error _ => (false, st)

/-- Outcomes of `n` successive upgrade attempts by one identity. -/
def upgrade_sequence (uid : Nat) (st : Registry) : Nat → List Bool
  | 0 => []
  | n + 1 =>
    let step := upgrade_step uid st
    step.1 :: upgrade_sequence uid step.2 n

/-! Scenario constants used by concrete theorems. -/

/-- Six public rooms, a database whose next insert would fail. -/
def c1env : Env :=
  { rooms := [⟨1, "ra", true⟩, ⟨2, "rb", true⟩, ⟨3, "rc", true⟩,
              ⟨4, "rd", true⟩, ⟨5, "re", true⟩, ⟨6, "rf", true⟩],
    members := [], persist := .error "db down", indexOk := true }

def c1user : User := ⟨0, "alice"⟩

def c1client : ConnectedClient := ⟨0, "alice", [], 0⟩

/-- The trace of one admitted connection dispatching six JoinRoom frames
for six distinct public rooms: the dispatch outputs and the final
registry. -/
def c1trace : List DispatchOutput × Registry :=
  ["ra", "rb", "rc", "rd", "re", "rf"].foldl
    (fun acc r =>
      let out := handle_websocket_message (.joinRoom r) c1user c1client c1env acc.2
      (acc.1 ++ [out], out.registry))
    ([], [])

/-- Environment with no rooms at all. -/
def c4env : Env := { rooms := [], members := [], persist := .error "x", indexOk := true }

def c4user : User := ⟨0, "alice"⟩

def c4client : ConnectedClient := ⟨0, "alice", [], 0⟩

/-- A registry whose only client is the WebRTC sender itself
(identity 5, outbound channel 7). -/
def c7client : ConnectedClient := ⟨5, "alice", ["call-1"], 7⟩

def c7reg : Registry := [("call-1", [(5, c7client)])]

/-- The kind of a WebRTC signalling frame; the relay treats all three
identically. -/
inductive SignalKind where
  | offer | answer | ice
deriving DecidableEq, Repr

def mkSignal : SignalKind → String → String → JsonVal → WsMessage
  | .offer, room, t, p => .webRtcOffer room t p
  | .answer, room, t, p => .webRtcAnswer room t p
  | .ice, room, t, p => .webRtcIceCandidate room t p

/-- Registry holding one client of identity 9 on channel 4, used to
witness the relay theorem. -/
def c7wreg : Registry := [("x", [(9, ⟨9, "bob", ["x"], 4⟩)])]

/-- Environment with one private room "secret" whose membership is
empty. -/
def c8env : Env :=
  { rooms := [⟨1, "secret", false⟩], members := [], persist := .error "x",
    indexOk := true }

/-- Environment with the public room "general" and a database insert
that succeeds with id 42 at timestamp 1000. -/
def c2envOk : Env :=
  { rooms := [⟨1, "general", true⟩], members := [], persist := .ok ⟨42, 1000⟩,
    indexOk := false }

/-- Same rooms, but the database insert fails. -/
def c2envErr : Env :=
  { rooms := [⟨1, "general", true⟩], members := [], persist := .error "db down",
    indexOk := true }

/-- Registry with two occupants of "general" on channels 11 and 12. -/
def c2reg : Registry :=
  [("general", [(1, ⟨1, "bob", ["general"], 11⟩), (2, ⟨2, "carol", ["general"], 12⟩)])]

/-! Helper lemmas shared across claims. -/

theorem checkAux_ok_iff (uid : Nat) (rooms : List RoomClients) :
    ∀ count : Nat, count < MAX_CONNECTIONS_PER_USER →
      (checkAux uid rooms count = Except.ok () ↔
        count + (rooms.filter (roomHasUser uid)).length < MAX_CONNECTIONS_PER_USER) := by
  induction rooms with
  | nil =>
    intro count h
    constructor
    · intro _; simpa using h
    · intro _; rfl
  | cons rc rest ih =>
    intro count h
    unfold checkAux
    by_cases hrc : roomHasUser uid rc
    · rw [if_pos hrc]
      by_cases hc : count + 1 ≥ MAX_CONNECTIONS_PER_USER
      · rw [if_pos hc]
        simp only [List.filter_cons, hrc, if_pos, List.length_cons]
        constructor
        · intro he; exact Except.noConfusion he
        · intro hlen; exact absurd hlen (by omega)
      · rw [if_neg hc]
        have ih2 := ih (count + 1) (by omega)
        rw [ih2]
        simp only [List.filter_cons, hrc, if_pos, List.length_cons]
        omega
    · rw [if_neg hrc]
      have ih2 := ih count h
      rw [ih2]
      simp only [List.filter_cons, hrc]
      simp

theorem check_connection_limit_ok_iff (uid : Nat) (st : Registry) :
    check_connection_limit uid st = Except.ok () ↔
      rowCount uid st < MAX_CONNECTIONS_PER_USER := by
  have h := checkAux_ok_iff uid (st.map Prod.snd) 0 (by decide)
  simpa [check_connection_limit, rowCount] using h

/-! Claims. -/

/-- Claim C1, counterexample: the connection-count cap is checked only at
upgrade time, so one admitted connection (registry row count 0, check
passes) can issue six JoinRoom dispatches for six distinct public rooms,
all succeeding, leaving six registry rows for its identity — more than
the claimed bound of 5. -/
theorem c1_rows_exceed_cap :
    check_connection_limit c1user.id [] = Except.ok ()
    ∧ (∀ o ∈ c1trace.1, o.result = Except.ok ())
    ∧ rowCount c1user.id c1trace.2 = 6
    ∧ ¬ rowCount c1user.id c1trace.2 ≤ MAX_CONNECTIONS_PER_USER := by
  refine ⟨rfl, by decide, rfl, by decide⟩

/-- Claim C1, amended: the registry row bound is enforced only at
upgrade admission — `check_connection_limit` succeeds exactly when the
identity currently appears in fewer than `MAX_CONNECTIONS_PER_USER = 5`
rooms; the claimed invariant over all reachable states fails because
join_room is not capped. -/
theorem c1_cap_checked_only_at_upgrade (uid : Nat) (st : Registry) :
    check_connection_limit uid st = Except.ok () ↔
      rowCount uid st < MAX_CONNECTIONS_PER_USER :=
  check_connection_limit_ok_iff uid st

/-- Claim C9 (confirmed): the upgrade-time limit counts registry rows,
not live connections. An identity referenced by no registry row passes
`check_connection_limit`, and since admission does not mutate the
registry, any number `n` of successive upgrade attempts are all
admitted. -/
theorem c9_roomless_identity_always_admitted (uid : Nat) (st : Registry)
    (n : Nat) (h : rowCount uid st = 0) :
    check_connection_limit uid st = Except.ok ()
    ∧ upgrade_sequence uid st n = List.replicate n true := by
  have hok : check_connection_limit uid st = Except.ok () :=
    (check_connection_limit_ok_iff uid st).2 (by rw [h]; decide)
  refine ⟨hok, ?_⟩
  induction n with
  | zero => rfl
  | succ k ih =>
    simp only [upgrade_sequence, upgrade_step, hok, List.replicate]
    simp only [upgrade_sequence, upgrade_step, hok] at ih
    simp [ih]

/-- Witness for C9: a registry in which identity 3 appears nowhere
admits six upgrade attempts in a row. -/
theorem c9_roomless_identity_always_admitted_witness :
    check_connection_limit 3 [("r", [(9, ⟨9, "u", ["r"], 1⟩)])] = Except.ok ()
    ∧ upgrade_sequence 3 [("r", [(9, ⟨9, "u", ["r"], 1⟩)])] 6 =
        List.replicate 6 true :=
  c9_roomless_identity_always_admitted 3 [("r", [(9, ⟨9, "u", ["r"], 1⟩)])] 6
    (by decide)

/-- Claim C3 (code bug): at a heartbeat tick with the shared
last-activity instant more than 60 s old, the heartbeat task enqueues
Error{1001, "Connection timed out"} and breaks its own loop, but
performs no socket close and no registry cleanup; cleanup is reached
only when the receive loop exits, and the receive loop exits only on a
client close frame or transport error — so the connection does not
terminate as the claim states. -/
theorem c3_heartbeat_timeout_only_enqueues :
    heartbeat_tick 60001 0 =
      ([.enqueueFrame (.error "Connection timed out" (some 1001))], true)
    ∧ ServerAction.closeSocket ∉ (heartbeat_tick 60001 0).1
    ∧ ServerAction.runCleanup ∉ (heartbeat_tick 60001 0).1
    ∧ recv_loop_exits .close = true
    ∧ recv_loop_exits .transportError = true
    ∧ recv_loop_exits (.text "hello") = false
    ∧ recv_loop_exits .binary = false
    ∧ recv_loop_exits .pingFrame = false
    ∧ recv_loop_exits .pongFrame = false := by
  refine ⟨rfl, by decide, by decide, rfl, rfl, rfl, rfl, rfl, rfl⟩

/-- Claim C4, counterexample: a dispatcher authorization failure ("Room
not found") reaches the peer as an Error frame whose `code` field is
`some 1002`, not absent as the claim states. -/
theorem c4_auth_error_carries_code_1002 :
    (dispatch_and_reply (.joinRoom "general") c4user c4client c4env []).toSender =
      [.error "Room not found" (some 1002)]
    ∧ (dispatch_and_reply (.joinRoom "general") c4user c4client c4env []).toSender ≠
      [.error "Room not found" none] := by
  refine ⟨rfl, by decide⟩

/-- Claim C4, amended: every dispatcher failure — in particular the
three authorization failures — is reported to the peer as an Error
frame carrying the message text together with code 1002. -/
theorem c4_auth_errors_report_code_1002 (msg : WsMessage) (user : User)
    (client : ConnectedClient) (env : Env) (st : Registry) (e : String)
    (hauth : e ∈ ["Room not found", "You are not a member of this private room",
                  "Target user not found or offline"])
    (herr : (handle_websocket_message msg user client env st).result = Except.error e) :
    (dispatch_and_reply msg user client env st).toSender =
      (handle_websocket_message msg user client env st).toSender ++
        [.error e (some 1002)] := by
  simp only [dispatch_and_reply, herr]

/-- Witness for the amended C4: dispatching JoinRoom for an unknown room
yields exactly the Error frame "Room not found" with code 1002. -/
theorem c4_auth_errors_report_code_1002_witness :
    (dispatch_and_reply (.joinRoom "lobby") c4user c4client c4env []).toSender =
      (handle_websocket_message (.joinRoom "lobby") c4user c4client c4env []).toSender ++
        [.error "Room not found" (some 1002)] :=
  c4_auth_errors_report_code_1002 (.joinRoom "lobby") c4user c4client c4env []
    "Room not found" (by decide) (by decide)

theorem foldl_pool_const (ops : List PoolOp) :
    ∀ p : Nat, p = RATE_LIMIT_MESSAGES →
      ops.foldl applyPoolOp p = RATE_LIMIT_MESSAGES := by
  induction ops with
  | nil => intro p h; simpa using h
  | cons op rest ih =>
    intro p h
    refine ih (applyPoolOp p op) ?_
    cases op with
    | acquire => simpa using h
    | replenish =>
      subst h
      simp [applyPoolOp, replenish_pool]

/-- Claim C6 (confirmed): a successful `try_acquire()` releases its
permit when the temporary is dropped (src/ws.rs line 331), so under
every sequence of acquires and replenishes from the initial 10 the
pool's value is invariantly exactly 10 — no Client's pool is ever
depleted (the restore obligation of the claim is therefore met
vacuously, its antecedent class being empty) and no pool ever exceeds
10; independently, a replenisher tick restores any below-10 pool of a
registry client to exactly 10. -/
theorem c6_pools_fixed_at_ten :
    (∀ ops : List PoolOp, runPoolOps ops = RATE_LIMIT_MESSAGES)
    ∧ (∀ (st : Registry) (pools : Nat → Nat) (cid : Nat),
      cid ∈ registryConnIds st → pools cid ≤ RATE_LIMIT_MESSAGES →
      rate_limit_reset_tick st pools cid = RATE_LIMIT_MESSAGES)
    ∧ (∀ ops : List PoolOp, runPoolOps ops ≤ RATE_LIMIT_MESSAGES) := by
  refine ⟨?_, ?_, ?_⟩
  · intro ops
    exact foldl_pool_const ops RATE_LIMIT_MESSAGES rfl
  · intro st pools cid hmem hle
    unfold rate_limit_reset_tick
    rw [if_pos hmem]
    unfold replenish_pool
    by_cases hlt : pools cid < RATE_LIMIT_MESSAGES
    · rw [if_pos hlt]
    · rw [if_neg hlt]; omega
  · intro ops
    exact le_of_eq (foldl_pool_const ops RATE_LIMIT_MESSAGES rfl)

/-- Witness for C6: a run of acquires and replenishes leaves the pool
at exactly 10, a registry client on channel 3 with a (hypothetical)
below-10 pool is topped back up to 10 by the tick, and no run pushes a
pool above 10. -/
theorem c6_pools_fixed_at_ten_witness :
    runPoolOps [PoolOp.acquire, PoolOp.replenish, PoolOp.acquire] =
      RATE_LIMIT_MESSAGES
    ∧ rate_limit_reset_tick [("r", [(1, ⟨1, "u", ["r"], 3⟩)])] (fun _ => 2) 3 =
      RATE_LIMIT_MESSAGES
    ∧ runPoolOps [PoolOp.acquire] ≤ RATE_LIMIT_MESSAGES :=
  ⟨c6_pools_fixed_at_ten.1 [PoolOp.acquire, PoolOp.replenish, PoolOp.acquire],
    c6_pools_fixed_at_ten.2.1 [("r", [(1, ⟨1, "u", ["r"], 3⟩)])]
      (fun _ => 2) 3 (by decide) (by decide),
    c6_pools_fixed_at_ten.2.2 [PoolOp.acquire]⟩

theorem process_text_frame_permits (decode : String → Option WsMessage)
    (cs : ConnState) (t : String) :
    (process_text_frame decode cs t).1.permits = cs.permits := by
  unfold process_text_frame
  by_cases hs : MAX_MESSAGE_SIZE < t.utf8ByteSize
  · rw [if_pos hs]
  · rw [if_neg hs]
    by_cases hp : cs.permits = 0
    · rw [if_pos hp]
    · rw [if_neg hp]
      cases decode t <;> rfl

theorem run_frames_permits_unchanged (decode : String → Option WsMessage) :
    ∀ (ts : List String) (cs : ConnState),
      (run_frames decode cs ts).1.permits = cs.permits := by
  intro ts
  induction ts with
  | nil => intro cs; rfl
  | cons t ts ih =>
    intro cs
    simp only [run_frames]
    rw [ih (process_text_frame decode cs t).1]
    exact process_text_frame_permits decode cs t

/-- Claim C5 (code bug): the SemaphorePermit returned by `try_acquire()`
(src/ws.rs line 331) is a temporary released when it is dropped at the
end of the `if` condition, so the pool is never durably decremented: no
run of inbound frames changes the permit count, and from the initial
pool of 10 a burst of 11 small decodable frames is dispatched in full —
every frame reaches the dispatcher and none receives
RateLimited{retry_after=1}, contrary to the claimed 10-per-window bound
on dispatches. -/
theorem c5_rate_limiter_never_fires :
    (∀ (decode : String → Option WsMessage) (cs : ConnState) (ts : List String),
      (run_frames decode cs ts).1.permits = cs.permits)
    ∧ countDispatched (run_frames (fun _ => some (.ping none))
        ⟨RATE_LIMIT_MESSAGES, 0⟩ (List.replicate 11 "a")).2 = 11
    ∧ ((run_frames (fun _ => some (.ping none)) ⟨RATE_LIMIT_MESSAGES, 0⟩
        (List.replicate 11 "a")).2.all
          (fun r => r.dispatched.isSome &&
            r.reply != some (.rateLimited RATE_LIMIT_WINDOW_SECS))) = true := by
  refine ⟨?_, by decide, by decide⟩
  intro decode cs ts
  exact run_frames_permits_unchanged decode ts cs

theorem alistFind_mem (k : Nat) (v : ConnectedClient) :
    ∀ l : List (Nat × ConnectedClient), alistFind k l = some v → (k, v) ∈ l := by
  intro l
  induction l with
  | nil => intro h; exact Option.noConfusion h
  | cons p rest ih =>
    obtain ⟨k2, v2⟩ := p
    intro h
    simp only [alistFind] at h
    by_cases hk : k2 = k
    · rw [if_pos hk] at h
      have hv : v2 = v := Option.some.inj h
      exact List.mem_cons.mpr (Or.inl (by rw [hk, hv]))
    · rw [if_neg hk] at h
      exact List.mem_cons.mpr (Or.inr (ih h))

theorem findTargetClient_mem (target : Nat) (c : ConnectedClient) :
    ∀ st : Registry, findTargetClient target st = some c →
      ∃ pr ∈ st, (target, c) ∈ (pr : String × RoomClients).2 := by
  intro st
  induction st with
  | nil => intro h; exact Option.noConfusion h
  | cons p rest ih =>
    obtain ⟨r, rc⟩ := p
    intro h
    simp only [findTargetClient] at h
    cases hf : alistFind target rc with
    | some c2 =>
      rw [hf] at h
      have hc : c2 = c := Option.some.inj h
      subst hc
      exact ⟨(r, rc), List.mem_cons_self _ _, alistFind_mem target c2 rc hf⟩
    | none =>
      rw [hf] at h
      obtain ⟨pr, hpr, hq⟩ := ih h
      exact ⟨pr, List.mem_cons.mpr (Or.inr hpr), hq⟩

/-- Claim C7, counterexample: a WebRTC offer whose `to_user_id` is the
sender's own identity (5) is relayed to the registry's client for
identity 5 — which is the sender's own connection (channel 7). The
sender therefore receives the frame, contradicting the claim's "the
sender receives nothing" for a target client that exists in the
registry. -/
theorem c7_self_signal_reaches_sender :
    relay_webrtc_signal (.webRtcOffer "call-1" "5" 0) 5 c7reg =
      .ok [⟨7, .webRtcOffer "call-1" "5" 0⟩]
    ∧ regFind "call-1" c7reg = some [(5, c7client)]
    ∧ c7client.user_id = 5
    ∧ c7client.connId = 7 := by
  refine ⟨rfl, rfl, rfl, rfl⟩

/-- Claim C7, amended: for a signalling frame whose `to_user_id` parses
to `target`, if the registry holds a client for `target` then exactly
that first-found client receives the frame with `to_user_id` rewritten
to the sender's identity, and — provided the target identity differs
from the sender's and the sender's channel appears in the registry only
under the sender's identity — the sender receives nothing; if no client
for `target` exists anywhere, the relay fails with "Target user not
found or offline". -/
theorem c7_relay_first_match_rewritten (k : SignalKind) (room t : String)
    (payload : JsonVal) (from_uid senderConn target : Nat) (st : Registry)
    (c : ConnectedClient)
    (hparse : parseUuid t = some target)
    (hchan : ∀ pr ∈ st, ∀ q ∈ (pr : String × RoomClients).2,
      (q : Nat × ConnectedClient).2.connId = senderConn → q.1 = from_uid) :
    (findTargetClient target st = some c →
      relay_webrtc_signal (mkSignal k room t payload) from_uid st =
        .ok [⟨c.connId, mkSignal k room (uuidToString from_uid) payload⟩]
      ∧ (target ≠ from_uid → c.connId ≠ senderConn))
    ∧ (findTargetClient target st = none →
      relay_webrtc_signal (mkSignal k room t payload) from_uid st =
        .error "Target user not found or offline") := by
  constructor
  · intro hfound
    constructor
    · cases k <;>
        simp [mkSignal, relay_webrtc_signal, relayParsed, hparse, hfound, enrichSignal]
    · intro hne hconn
      obtain ⟨pr, hpr, hq⟩ := findTargetClient_mem target c st hfound
      exact hne (hchan pr hpr (target, c) hq hconn)
  · intro hnone
    cases k <;>
      simp [mkSignal, relay_webrtc_signal, relayParsed, hparse, hnone]

/-- Witness for the amended C7: identity 5 (channel 7) signals identity
9, registered on channel 4; the frame reaches channel 4 with
`to_user_id` rewritten to "5", and channel 4 is not the sender's. -/
theorem c7_relay_first_match_rewritten_witness :
    relay_webrtc_signal (mkSignal .offer "x" "9" 0) 5 c7wreg =
      .ok [⟨4, mkSignal .offer "x" (uuidToString 5) 0⟩]
    ∧ (4 : Nat) ≠ 7 := by
  have h := c7_relay_first_match_rewritten SignalKind.offer "x" "9" 0 5 7 9 c7wreg
    ⟨9, "bob", ["x"], 4⟩ (by decide) (by decide)
  have h2 := h.1 (by decide)
  exact ⟨h2.1, h2.2 (by decide)⟩

theorem filterMap_keepAll (m : WsMessage) :
    ∀ rc : RoomClients,
      rc.filterMap (fun p =>
        if keepRecipient none p.1 then some (Delivery.mk p.2.connId m) else none) =
        rc.map (fun p => Delivery.mk p.2.connId m) := by
  intro rc
  induction rc with
  | nil => rfl
  | cons p ps ih =>
    simp [List.filterMap_cons, keepRecipient] at ih ⊢
    exact ih

theorem broadcast_to_room_none_eq (room : String) (m : WsMessage) (st : Registry) :
    broadcast_to_room room m none st =
      ((regFind room st).getD []).map (fun p => Delivery.mk p.2.connId m) := by
  unfold broadcast_to_room
  cases h : regFind room st with
  | none => simp
  | some rc => simp [filterMap_keepAll]

/-- Reduction of the SendMessage branch of the dispatcher for valid
content and an accessible room: the outcome is decided entirely by the
persistence result. -/
theorem handle_send_reduces (room content : String) (mtype : Option String)
    (user : User) (client : ConnectedClient) (env : Env) (st : Registry)
    (robj : Room)
    (hc1 : content.isEmpty = false) (hc2 : content.utf8ByteSize ≤ 4000)
    (hres : resolve_room env room = some robj)
    (hacc : robj.is_public = true ∨ is_member env robj.id user.id = true) :
    handle_websocket_message (.sendMessage room content mtype) user client env st =
      match env.persist with
      | .error e => errOutput st e
      | .ok pm =>
        { registry := st
          toSender := []
          broadcasts := [⟨room,
            .message (uuidToString pm.id) room (uuidToString user.id)
              user.username content (dbTypeString (toDbMessageType mtype))
              pm.created_at, none⟩]
          deliveries := broadcast_to_room room
            (.message (uuidToString pm.id) room (uuidToString user.id)
              user.username content (dbTypeString (toDbMessageType mtype))
              pm.created_at) none st
          persisted := [⟨robj.id, user.id, content, toDbMessageType mtype⟩]
          indexed := [⟨uuidToString pm.id, uuidToString robj.id, robj.name,
            uuidToString user.id, user.username, content, pm.created_at,
            dbTypeString (toDbMessageType mtype)⟩]
          result := .ok () } := by
  have hguard : ¬ (!robj.is_public && !is_member env robj.id user.id) = true := by
    rcases hacc with h | h <;> simp [h]
  simp only [handle_websocket_message]
  rw [if_neg (by simp [hc1])]
  rw [if_neg (by omega)]
  rw [hres]
  simp only [if_neg hguard]

/-- Claim C2 (confirmed): for a SendMessage frame with valid content and
an accessible room, the Message frame is broadcast exactly when the
persistence call succeeded: on a persistence failure the dispatcher
performs no broadcast and the peer gets an Error frame carrying the
failure text; on success the frame is broadcast to every client of
`registry[room]` — irrespective of the search-index outcome, which the
dispatcher ignores (the `indexOk` field of the environment is
unconstrained here). -/
theorem c2_broadcast_iff_persisted (room content : String) (mtype : Option String)
    (user : User) (client : ConnectedClient) (env : Env) (st : Registry)
    (robj : Room)
    (hc1 : content.isEmpty = false) (hc2 : content.utf8ByteSize ≤ 4000)
    (hres : resolve_room env room = some robj)
    (hacc : robj.is_public = true ∨ is_member env robj.id user.id = true) :
    (∀ e, env.persist = .error e →
      (handle_websocket_message (.sendMessage room content mtype) user client env st).broadcasts = []
      ∧ (handle_websocket_message (.sendMessage room content mtype) user client env st).deliveries = []
      ∧ (handle_websocket_message (.sendMessage room content mtype) user client env st).persisted = []
      ∧ (dispatch_and_reply (.sendMessage room content mtype) user client env st).toSender =
          [.error e (some 1002)])
    ∧ (∀ pm, env.persist = .ok pm →
      (handle_websocket_message (.sendMessage room content mtype) user client env st).broadcasts =
        [⟨room, .message (uuidToString pm.id) room (uuidToString user.id)
          user.username content (dbTypeString (toDbMessageType mtype))
          pm.created_at, none⟩]
      ∧ (handle_websocket_message (.sendMessage room content mtype) user client env st).persisted =
          [⟨robj.id, user.id, content, toDbMessageType mtype⟩]
      ∧ (handle_websocket_message (.sendMessage room content mtype) user client env st).deliveries =
          ((regFind room st).getD []).map (fun p => Delivery.mk p.2.connId
            (.message (uuidToString pm.id) room (uuidToString user.id)
              user.username content (dbTypeString (toDbMessageType mtype))
              pm.created_at))
      ∧ (handle_websocket_message (.sendMessage room content mtype) user client env st).result =
          .ok ()) := by
  have hh := handle_send_reduces room content mtype user client env st robj
    hc1 hc2 hres hacc
  constructor
  · intro e he
    rw [he] at hh
    refine ⟨by rw [hh]; rfl, by rw [hh]; rfl, by rw [hh]; rfl, ?_⟩
    unfold dispatch_and_reply
    rw [hh]
    rfl
  · intro pm hp
    rw [hp] at hh
    refine ⟨by rw [hh], by rw [hh], ?_, by rw [hh]⟩
    rw [hh]
    exact broadcast_to_room_none_eq room _ st

/-- Witness for C2: in room "general" occupied by channels 11 and 12, a
successful insert (id 42, timestamp 1000) broadcasts the Message frame
to both channels even though the search index call fails, while a
failing insert broadcasts nothing and produces the Error reply. -/
theorem c2_broadcast_iff_persisted_witness :
    (handle_websocket_message (.sendMessage "general" "hi" none) ⟨1, "bob"⟩
        ⟨1, "bob", ["general"], 11⟩ c2envOk c2reg).deliveries =
      [⟨11, .message "42" "general" "1" "bob" "hi" "text" 1000⟩,
        ⟨12, .message "42" "general" "1" "bob" "hi" "text" 1000⟩]
    ∧ (handle_websocket_message (.sendMessage "general" "hi" none) ⟨1, "bob"⟩
        ⟨1, "bob", ["general"], 11⟩ c2envOk c2reg).persisted =
      [⟨1, 1, "hi", .text⟩]
    ∧ (handle_websocket_message (.sendMessage "general" "hi" none) ⟨1, "bob"⟩
        ⟨1, "bob", ["general"], 11⟩ c2envErr c2reg).broadcasts = []
    ∧ (dispatch_and_reply (.sendMessage "general" "hi" none) ⟨1, "bob"⟩
        ⟨1, "bob", ["general"], 11⟩ c2envErr c2reg).toSender =
      [.error "db down" (some 1002)] := by
  have hok := (c2_broadcast_iff_persisted "general" "hi" none ⟨1, "bob"⟩
    ⟨1, "bob", ["general"], 11⟩ c2envOk c2reg ⟨1, "general", true⟩
    (by decide) (by decide) (by decide) (Or.inl rfl)).2 ⟨42, 1000⟩ rfl
  have herr := (c2_broadcast_iff_persisted "general" "hi" none ⟨1, "bob"⟩
    ⟨1, "bob", ["general"], 11⟩ c2envErr c2reg ⟨1, "general", true⟩
    (by decide) (by decide) (by decide) (Or.inl rfl)).1 "db down" rfl
  exact ⟨hok.2.2.1, hok.2.1, herr.1, herr.2.2.2⟩

/-- Claim C8 (confirmed): a JoinRoom frame naming an existing private
room whose membership does not contain the sender yields exactly the
Error reply "You are not a member of this private room" (with the
caller-attached code 1002); the registry is unchanged and no RoomJoined
or UserJoined frame is produced. -/
theorem c8_private_room_rejected (room : String) (user : User)
    (client : ConnectedClient) (env : Env) (st : Registry) (robj : Room)
    (hname1 : room.isEmpty = false) (hname2 : room.utf8ByteSize ≤ 100)
    (hres : resolve_room env room = some robj)
    (hpriv : robj.is_public = false)
    (hmem : is_member env robj.id user.id = false) :
    dispatch_and_reply (.joinRoom room) user client env st =
      { registry := st
        toSender := [.error "You are not a member of this private room" (some 1002)]
        broadcasts := []
        deliveries := []
        persisted := []
        indexed := []
        result := .error "You are not a member of this private room" } := by
  have hh : handle_websocket_message (.joinRoom room) user client env st =
      errOutput st "You are not a member of this private room" := by
    simp only [handle_websocket_message]
    rw [if_neg (by simp [hname1]; omega)]
    rw [hres]
    simp only [if_pos (show (!robj.is_public && !is_member env robj.id user.id) = true
      by simp [hpriv, hmem])]
  unfold dispatch_and_reply
  rw [hh]
  rfl

/-- Witness for C8: alice, not a member of the private room "secret",
is rejected and the empty registry stays empty. -/
theorem c8_private_room_rejected_witness :
    dispatch_and_reply (.joinRoom "secret") ⟨0, "alice"⟩ ⟨0, "alice", [], 0⟩
        c8env [] =
      { registry := []
        toSender := [.error "You are not a member of this private room" (some 1002)]
        broadcasts := []
        deliveries := []
        persisted := []
        indexed := []
        result := .error "You are not a member of this private room" } :=
  c8_private_room_rejected "secret" ⟨0, "alice"⟩ ⟨0, "alice", [], 0⟩ c8env []
    ⟨1, "secret", false⟩ (by decide) (by decide) (by decide) rfl rfl

/-- Claim C10 (confirmed): a SendMessage frame with valid content and an
accessible room that has no registry entry is persisted and indexed,
yet no Message frame is delivered to anybody — the sender included —
and the registry is unchanged. -/
theorem c10_send_to_unoccupied_room (room content : String)
    (mtype : Option String) (user : User) (client : ConnectedClient)
    (env : Env) (st : Registry) (robj : Room) (pm : PersistedMsg)
    (hc1 : content.isEmpty = false) (hc2 : content.utf8ByteSize ≤ 4000)
    (hres : resolve_room env room = some robj)
    (hacc : robj.is_public = true ∨ is_member env robj.id user.id = true)
    (hp : env.persist = .ok pm)
    (hreg : regFind room st = none) :
    (handle_websocket_message (.sendMessage room content mtype) user client env st).persisted =
      [⟨robj.id, user.id, content, toDbMessageType mtype⟩]
    ∧ (handle_websocket_message (.sendMessage room content mtype) user client env st).indexed =
      [⟨uuidToString pm.id, uuidToString robj.id, robj.name, uuidToString user.id,
        user.username, content, pm.created_at, dbTypeString (toDbMessageType mtype)⟩]
    ∧ (handle_websocket_message (.sendMessage room content mtype) user client env st).deliveries = []
    ∧ (handle_websocket_message (.sendMessage room content mtype) user client env st).toSender = []
    ∧ (handle_websocket_message (.sendMessage room content mtype) user client env st).registry = st
    ∧ (handle_websocket_message (.sendMessage room content mtype) user client env st).result =
      .ok () := by
  have hh := handle_send_reduces room content mtype user client env st robj
    hc1 hc2 hres hacc
  rw [hp] at hh
  refine ⟨by rw [hh], by rw [hh], ?_, by rw [hh], by rw [hh], by rw [hh]⟩
  rw [hh]
  show broadcast_to_room room _ none st = []
  rw [broadcast_to_room_none_eq, hreg]
  rfl

/-- Witness for C10: sending "hi" to the public, registry-absent room
"general" (registry empty) persists row 42 and issues the index-add,
while nobody — not even the sender — receives the Message frame. -/
theorem c10_send_to_unoccupied_room_witness :
    (handle_websocket_message (.sendMessage "general" "hi" none) ⟨1, "bob"⟩
        ⟨1, "bob", [], 11⟩ c2envOk []).persisted = [⟨1, 1, "hi", .text⟩]
    ∧ (handle_websocket_message (.sendMessage "general" "hi" none) ⟨1, "bob"⟩
        ⟨1, "bob", [], 11⟩ c2envOk []).indexed =
      [⟨"42", "1", "general", "1", "bob", "hi", 1000, "text"⟩]
    ∧ (handle_websocket_message (.sendMessage "general" "hi" none) ⟨1, "bob"⟩
        ⟨1, "bob", [], 11⟩ c2envOk []).deliveries = []
    ∧ (handle_websocket_message (.sendMessage "general" "hi" none) ⟨1, "bob"⟩
        ⟨1, "bob", [], 11⟩ c2envOk []).toSender = []
    ∧ (handle_websocket_message (.sendMessage "general" "hi" none) ⟨1, "bob"⟩
        ⟨1, "bob", [], 11⟩ c2envOk []).registry = ([] : Registry)
    ∧ (handle_websocket_message (.sendMessage "general" "hi" none) ⟨1, "bob"⟩
        ⟨1, "bob", [], 11⟩ c2envOk []).result = .ok () :=
  c10_send_to_unoccupied_room "general" "hi" none ⟨1, "bob"⟩ ⟨1, "bob", [], 11⟩
    c2envOk [] ⟨1, "general", true⟩ ⟨42, 1000⟩ (by decide) (by decide)
    (by decide) (Or.inl rfl) rfl rfl

end MiuchiChat
